import Mathlib

/-!
Verification development for the Thalassa Stone Rooms virtual-tour engine.

The definitions below are a shallow embedding of the JavaScript source:

* the manifest / panorama-graph loader (`trailingNumber`, `loadManifest`,
  `getPanoByNumber`, circular `prev`/`next` links),
* the mode state machine (`enterPanorama`, `exitPanorama`) acting on an
  explicit record of the module-level mutable variables,
* the camera easing curve used by `animateCamera`,
* the field-of-view zoom accumulator (`onPanoWheel` and the pinch branch of
  the touchmove handler),
* the floor-marker (arrow) generation (`createPanoArrows`), and
* the tap classifier in `onGlobalPointerUp`.

Numeric model: exact rationals stand in for JavaScript numbers wherever the
source only performs field operations and comparisons (so "bit-for-bit"
restoration becomes exact equality); real numbers are used where the source
calls transcendental functions (`Math.atan2`, `Math.sqrt`).
DOM / renderer side effects (CSS classes, texture loads, label text) are
outside the state model; every field the state machine reads or writes is
modelled.
-/

/-- Presentation mode: the JS string variable `currentMode`,
either `'dollhouse'` or `'panorama'`. -/
inductive Mode where
  | dollhouse
  | panorama
deriving DecidableEq, Repr

/-- A 3D vector with exact rational coordinates (models a `THREE.Vector3`
or a plain `{x, y, z}` object). -/
structure Vec3 where
  x : ℚ
  y : ℚ
  z : ℚ
deriving DecidableEq, Repr

/-- Word character of the JavaScript regex class `\w`: `[A-Za-z0-9_]`. -/
def isWordChar (c : Char) : Bool :=
  c.isAlphanum || c = '_'

/-- JS `filename.replace(/\.\w+$/, '')`: remove a final dot followed by a
non-empty run of word characters, if the string ends that way. -/
def stripExtension (s : String) : String :=
  let rev := s.toList.reverse
  let w := rev.takeWhile isWordChar
  match rev.drop w.length with
  | '.' :: rest => if w.isEmpty then s else String.mk rest.reverse
  | _ => s

/-- The trailing run of decimal digits of a string (possibly empty),
as matched by the JS regex `/(\d+)$/`. -/
def trailingDigits (s : String) : List Char :=
  (s.toList.reverse.takeWhile Char.isDigit).reverse

/-- Base-10 value of a digit string, as computed by `parseInt(ds, 10)`. -/
def digitsToNat (ds : List Char) : Nat :=
  ds.foldl (fun acc c => acc * 10 + (c.toNat - '0'.toNat)) 0

namespace Tour

/-- Embeds `trailingNumber` from the tour core:
`filename.replace(/\.\w+$/, '').match(/(\d+)$/)`; returns `parseInt(m[1], 10)`
when the stripped name ends in digits and `Infinity` otherwise.
`none` models the `Infinity` sentinel. -/
def trailingNumber (filename : String) : Option Nat :=
  let ds := trailingDigits (stripExtension filename)
  if ds.isEmpty then none else some (digitsToNat ds)

end Tour

namespace ManifestGen

/-- Embeds `trailingNumber` from the manifest-generation utility
(`scripts/generate_pano_manifest.mjs`); same regex pipeline as the core:
strip `/\.\w+$/`, match `/(\d+)$/`, `parseInt(..., 10)`, else `Infinity`
(modelled as `none`). -/
def trailingNumber (filename : String) : Option Nat :=
  let ds := trailingDigits (stripExtension filename)
  if ds.isEmpty then none else some (digitsToNat ds)

end ManifestGen

/-- Comparison used by `files.sort((a, b) => trailingNumber(a) - trailingNumber(b))`:
finite keys ascending, the `Infinity` sentinel (`none`) sorted after every
finite key; two sentinels compare equal (JS comparator yields `NaN`, treated
as `0` by `Array.prototype.sort`). -/
def keyLE (a b : Option Nat) : Bool :=
  match a, b with
  | some x, some y => x ≤ y
  | some _, none => true
  | none, some _ => false
  | none, none => true

/-- Sort order on manifest filenames induced by the core's trailing-number
keys. -/
def manifestLE (a b : String) : Prop :=
  keyLE (Tour.trailingNumber a) (Tour.trailingNumber b) = true

instance : DecidableRel manifestLE := fun a b => by
  unfold manifestLE; infer_instance

/-- One entry of `panoGraph`: `{ index, file, arrayIdx }` as built in
`loadManifest`.  The `prev`/`next` references assigned by the loader are a
function of the array position alone (see `nextIdx` / `prevIdx`), so they are
not stored in the node. -/
structure PanoNode where
  index : Option Nat
  file : String
  arrayIdx : Nat
deriving DecidableEq, Repr

/-- Embeds the pure part of `loadManifest`: sort the manifest's `files` by
trailing number and build the `panoGraph` array of
`{ index: trailingNumber(file), file, arrayIdx: i }` records. -/
def loadManifest (files : List String) : List PanoNode :=
  ((List.insertionSort manifestLE files).enum).map
    (fun p => { index := Tour.trailingNumber p.2, file := p.2, arrayIdx := p.1 })

/-- Array position of `panoGraph[i].next`, per the loader's
`panoGraph[(i + 1) % panoGraph.length]`. -/
def nextIdx (n i : Nat) : Nat :=
  (i + 1) % n

/-- Array position of `panoGraph[i].prev`, per the loader's
`panoGraph[(i - 1 + panoGraph.length) % panoGraph.length]`
(the integer `i - 1 + n` is `i + n - 1`). -/
def prevIdx (n i : Nat) : Nat :=
  (i + n - 1) % n

/-- Embeds `getPanoByNumber(num)`:
`panoGraph.find(p => p.index === num) || null`. -/
def getPanoByNumber (panoGraph : List PanoNode) (num : Nat) : Option PanoNode :=
  panoGraph.find? (fun p => p.index = some num)

/-- The module-level mutable variables of the tour read or written by the
mode state machine (`enterPanorama` / `exitPanorama`).  Camera and controls
fields model the renderer state the code touches (`camera.position`,
`controls.target`, `camera.fov/near/far`, `controls.enabled`, visibility of
the dollhouse model and hotspot meshes).  `currentPanoIndex` is an integer
because the source initialises it to `-1`.  `hotspotPositions` maps a pano
number to its dollhouse-space anchor, `none` when no entry exists. -/
structure TourState where
  currentMode : Mode
  currentPanoIndex : Int
  cameraPos : Vec3
  cameraFov : ℚ
  cameraNear : ℚ
  cameraFar : ℚ
  controlsTarget : Vec3
  controlsEnabled : Bool
  modelVisible : Bool
  hotspotsVisible : Bool
  panoYaw : ℚ
  panoPitch : ℚ
  panoFov : ℚ
  savedCameraPos : Option Vec3
  savedControlsTarget : Option Vec3
  savedCameraFov : ℚ
  savedCameraNear : ℚ
  savedCameraFar : ℚ
  panoGraph : List PanoNode
  hotspotPositions : Nat → Option Vec3

/-- Embeds `enterPanorama(panoNum)`:
returns immediately when `getPanoByNumber(panoNum)` is `null`; otherwise sets
`currentMode = 'panorama'`, `currentPanoIndex = pano.arrayIdx`, saves the five
camera-state fields, resets `panoFov`/`camera.fov` to 60, hides the model and
hotspot meshes, disables orbit controls, moves the camera to the origin with
`near = 0.1`, `far = 1100`, and resets `panoYaw`/`panoPitch` to 0.
The trailing `loadPanoTexture` / `updatePanoLabel` calls are asynchronous
DOM/renderer effects outside this state record. -/
def enterPanorama (st : TourState) (panoNum : Nat) : TourState :=
  match getPanoByNumber st.panoGraph panoNum with
  | none => st
  | some pano =>
    { st with
      currentMode := Mode.panorama
      currentPanoIndex := (pano.arrayIdx : Int)
      savedCameraPos := some st.cameraPos
      savedControlsTarget := some st.controlsTarget
      savedCameraFov := st.cameraFov
      savedCameraNear := st.cameraNear
      savedCameraFar := st.cameraFar
      panoFov := 60
      cameraFov := 60
      modelVisible := false
      hotspotsVisible := false
      controlsEnabled := false
      cameraPos := ⟨0, 0, 0⟩
      cameraNear := 1/10
      cameraFar := 1100
      panoYaw := 0
      panoPitch := 0 }

/-- Embeds `exitPanorama()`: sets `currentMode = 'dollhouse'`; when a camera
snapshot was saved (`if (savedCameraPos)`) copies the saved position, target,
fov, near and far back onto the camera; shows the model and hotspot meshes
and re-enables orbit controls.  The source only ever writes
`savedCameraPos` and `savedControlsTarget` together (in `enterPanorama`), so
the restore branch matches on both being present.  Hiding the pano sphere and
disposing the texture are renderer effects outside this record.
Note: the source does not reset `currentPanoIndex`. -/
def exitPanorama (st : TourState) : TourState :=
  let st1 : TourState := { st with currentMode := Mode.dollhouse }
  let st2 : TourState :=
    match st1.savedCameraPos, st1.savedControlsTarget with
    | some p, some t =>
      { st1 with
        cameraPos := p
        controlsTarget := t
        cameraFov := st1.savedCameraFov
        cameraNear := st1.savedCameraNear
        cameraFar := st1.savedCameraFar }
    | _, _ => st1
  { st2 with modelVisible := true, hotspotsVisible := true, controlsEnabled := true }

/-- Clamp of the field-of-view accumulator:
`Math.max(30, Math.min(100, panoFov))`. -/
def clampFov (f : ℚ) : ℚ :=
  max 30 (min 100 f)

/-- Embeds the `panoFov` update in `onPanoWheel`:
`panoFov += e.deltaY * 0.05; panoFov = Math.max(30, Math.min(100, panoFov))`. -/
def onPanoWheel (panoFov deltaY : ℚ) : ℚ :=
  clampFov (panoFov + deltaY * (5/100))

/-- Embeds the `panoFov` update in the two-finger branch of the `touchmove`
handler: `const delta = panoPinchDist - dist; panoFov += delta * 0.15;`
then the same clamp. -/
def onPinchMove (panoFov delta : ℚ) : ℚ :=
  clampFov (panoFov + delta * (15/100))

/-- A zoom input: a wheel event's `deltaY`, or a pinch frame's
`panoPinchDist - dist` delta. -/
inductive ZoomInput where
  | wheel (deltaY : ℚ)
  | pinch (delta : ℚ)
deriving DecidableEq, Repr

/-- Apply one zoom input to the shared `panoFov` accumulator. -/
def applyZoomInput (panoFov : ℚ) : ZoomInput → ℚ
  | ZoomInput.wheel d => onPanoWheel panoFov d
  | ZoomInput.pinch d => onPinchMove panoFov d

/-- Run a finite sequence of zoom inputs from the initial `panoFov = 60`. -/
def applyZoomInputs (inputs : List ZoomInput) : ℚ :=
  inputs.foldl applyZoomInput 60

/-- The cubic ease-in-out curve used by `animateCamera` (both in the tour
core and in `tour.js`):
`p < 0.5 ? 4 * p * p * p : 1 - Math.pow(-2 * p + 2, 3) / 2`. -/
def easeInOutCubic (p : ℚ) : ℚ :=
  if p < 1/2 then 4 * p ^ 3 else 1 - (-2 * p + 2) ^ 3 / 2

/-- Displacement computed in `onGlobalPointerUp`:
`Math.sqrt((cx - pointerDownPos.x) ** 2 + (cy - pointerDownPos.y) ** 2)`. -/
noncomputable def tapDisplacement (cx cy px py : ℝ) : ℝ :=
  Real.sqrt ((cx - px) ^ 2 + (cy - py) ^ 2)

/-- The tap test in `onGlobalPointerUp`: the click handler `onPointerClick`
fires iff `elapsed < 300 && dist < 10`. -/
def isTap (elapsed : ℤ) (cx cy px py : ℝ) : Prop :=
  elapsed < 300 ∧ tapDisplacement cx cy px py < 10

/-- Exact-real model of `Math.atan2(y, x)`: the principal argument of the
complex number `x + y·i`. -/
noncomputable def atan2 (y x : ℝ) : ℝ :=
  Complex.arg ⟨x, y⟩

/-- Embeds `THREE.MathUtils.radToDeg`: `radians * (180 / Math.PI)`. -/
noncomputable def radToDeg (r : ℝ) : ℝ :=
  r * (180 / Real.pi)

/-- JS `PANO_CONNECTIONS[index] || []`, with `index` possibly the `Infinity`
sentinel (an absent key yields `[]`). -/
def connectionsOf (connections : Nat → List Nat) : Option Nat → List Nat
  | some n => connections n
  | none => []

/-- JS `PANO_NORTH_OFFSET[index] || 0`, with `index` possibly the `Infinity`
sentinel (an absent key and an explicit `0` both yield `0`). -/
def northOffsetOf (northOffset : Nat → ℚ) : Option Nat → ℚ
  | some n => northOffset n
  | none => 0

/-- JS `panoGraph[currentPanoIndex]`: `undefined` (here `none`) when the
index is `-1` or out of range. -/
def graphAt (panoGraph : List PanoNode) (i : Int) : Option PanoNode :=
  if i < 0 then none else panoGraph.get? i.toNat

/-- Embeds the marker data computed by `createPanoArrows`: for the active
node (`panoGraph[currentPanoIndex]`), provided it exists and has a hotspot
position, walk its connection list; a connection whose target node or target
hotspot position is missing is skipped (`continue`); otherwise a floor
circle is produced at
`yawDeg = radToDeg(atan2(dz, dx)) - (PANO_NORTH_OFFSET[pano.index] || 0)`.
Each produced marker is recorded as the pair (target pano number, `yawDeg`);
the visual geometry built by `createFloorCircle` is a renderer effect. -/
noncomputable def createPanoArrows (panoGraph : List PanoNode)
    (currentPanoIndex : Int) (hotspotPositions : Nat → Option Vec3)
    (connections : Nat → List Nat) (northOffset : Nat → ℚ) :
    List (Nat × ℝ) :=
  match graphAt panoGraph currentPanoIndex with
  | none => []
  | some pano =>
    match pano.index.bind hotspotPositions with
    | none => []
    | some currentPos =>
      (connectionsOf connections pano.index).filterMap (fun targetIndex =>
        match getPanoByNumber panoGraph targetIndex,
              hotspotPositions targetIndex with
        | some _, some targetPos =>
          some (targetIndex,
            radToDeg (atan2 ((targetPos.z - currentPos.z : ℚ) : ℝ)
                            ((targetPos.x - currentPos.x : ℚ) : ℝ))
              - ((northOffsetOf northOffset pano.index : ℚ) : ℝ))
        | _, _ => none)

/-! ## Demonstration fixtures (concrete inputs for witnesses and
counterexamples) -/

/-- The concrete manifest of the spec's example. -/
def demoManifest : List PanoNode :=
  loadManifest ["room-3.jpg", "room-1.jpg", "room-10.jpg"]

/-- Sort order on manifest filenames induced by the generator's
trailing-number keys (`scripts/generate_pano_manifest.mjs` sorts with the
same comparator shape as the core's `loadManifest`). -/
def manifestGenLE (a b : String) : Prop :=
  keyLE (ManifestGen.trailingNumber a) (ManifestGen.trailingNumber b) = true

instance : DecidableRel manifestGenLE := fun a b => by
  unfold manifestGenLE; infer_instance

/-- Concrete four-node graph for the bearing example: the active node 1 and
neighbors 2, 3, 4. -/
def demoArrowGraph : List PanoNode :=
  [⟨some 1, "room-1.jpg", 0⟩, ⟨some 2, "room-2.jpg", 1⟩,
   ⟨some 3, "room-3.jpg", 2⟩, ⟨some 4, "room-4.jpg", 3⟩]

/-- Hotspot registry for the bearing example: node 1 at the origin, node 2 at
(1,0,0), node 3 at (0,0,1); node 4 has no recorded position. -/
def demoArrowHotspots : Nat → Option Vec3
  | 1 => some ⟨0, 0, 0⟩
  | 2 => some ⟨1, 0, 0⟩
  | 3 => some ⟨0, 0, 1⟩
  | _ => none

/-- Connection table for the bearing example: node 1 connects to 2, 3, 4. -/
def demoArrowConnections : Nat → List Nat
  | 1 => [2, 3, 4]
  | _ => []

/-- A concrete pre-entry dollhouse state: one graph node (pano number 1 at
array position 0), no hotspot positions recorded, camera away from the
origin. -/
def demoState : TourState where
  currentMode := Mode.dollhouse
  currentPanoIndex := -1
  cameraPos := ⟨10, 8, 10⟩
  cameraFov := 60
  cameraNear := 1/10
  cameraFar := 1000
  controlsTarget := ⟨0, 0, 0⟩
  controlsEnabled := true
  modelVisible := true
  hotspotsVisible := true
  panoYaw := 0
  panoPitch := 0
  panoFov := 60
  savedCameraPos := none
  savedControlsTarget := none
  savedCameraFov := 60
  savedCameraNear := 1/10
  savedCameraFar := 1000
  panoGraph := [⟨some 1, "room-1.jpg", 0⟩]
  hotspotPositions := fun _ => none

/-! ## Claims C1-C4: the mode state machine -/

/-- Claim C1 counterexample: in `demoState` the graph has a node with index 1
but no hotspot position is recorded for 1, yet `enterPanorama(1)` is not a
no-op — the mode flips to panorama and a snapshot is written (the claim says
a missing hotspot position alone forces a no-op). -/
theorem enterPanorama_enters_without_hotspot_position :
    demoState.hotspotPositions 1 = none ∧
    (getPanoByNumber demoState.panoGraph 1).isSome = true ∧
    demoState.currentMode = Mode.dollhouse ∧
    (enterPanorama demoState 1).currentMode = Mode.panorama ∧
    demoState.savedCameraPos = none ∧
    (enterPanorama demoState 1).savedCameraPos = some demoState.cameraPos :=
  ⟨rfl, rfl, rfl, rfl, rfl, rfl⟩

/-- Claim C1 amended: `enterPanorama(i)` is a no-op — the entire state, in
particular the mode, the active node and the saved camera-state snapshot, is
unchanged — when the graph contains no node with index `i`.  A missing
hotspot position does not prevent entry (the hotspot registry is not
consulted; see the counterexample). -/
theorem enterPanorama_unknown_node_noop (st : TourState) (i : Nat)
    (h : getPanoByNumber st.panoGraph i = none) :
    enterPanorama st i = st := by
  unfold enterPanorama
  rw [h]

/-- Witness for `enterPanorama_unknown_node_noop`: pano number 9 has no node
in `demoState`'s graph, and `enterPanorama demoState 9` leaves the state
unchanged. -/
theorem enterPanorama_unknown_node_noop_witness :
    enterPanorama demoState 9 = demoState :=
  enterPanorama_unknown_node_noop demoState 9 rfl

/-- Claim C2 counterexample: two immediate `enterPanorama(1)` calls from
`demoState`.  The camera-state snapshot after the second call holds the
in-panorama camera position (0,0,0), not the pre-entry dollhouse position
(10,8,10): the single snapshot no longer holds the pre-entry dollhouse
camera state, because `enterPanorama` has no already-in-panorama guard. -/
theorem enterPanorama_reentrant_overwrites_snapshot :
    demoState.cameraPos = ⟨10, 8, 10⟩ ∧
    (enterPanorama demoState 1).currentMode = Mode.panorama ∧
    (enterPanorama (enterPanorama demoState 1) 1).savedCameraPos
      = some ⟨0, 0, 0⟩ ∧
    ¬ (enterPanorama (enterPanorama demoState 1) 1).savedCameraPos
      = some demoState.cameraPos := by
  refine ⟨rfl, rfl, rfl, ?_⟩
  decide

/-- Claim C2 amended: `enterPanorama` is not guarded by the mode.  A second
call with the same valid index before exiting leaves the active node where
the first call put it (one net active-node change), but re-runs the whole
transition and overwrites the snapshot with the in-panorama camera state —
position (0,0,0), fov 60, near 0.1, far 1100 — so the pre-entry dollhouse
snapshot is lost rather than preserved. -/
theorem enterPanorama_reentrant_snapshot_origin (st : TourState) (i : Nat)
    (pano : PanoNode) (h : getPanoByNumber st.panoGraph i = some pano) :
    (enterPanorama (enterPanorama st i) i).currentPanoIndex
      = (enterPanorama st i).currentPanoIndex ∧
    (enterPanorama (enterPanorama st i) i).currentMode = Mode.panorama ∧
    (enterPanorama (enterPanorama st i) i).savedCameraPos = some ⟨0, 0, 0⟩ ∧
    (enterPanorama (enterPanorama st i) i).savedCameraFov = 60 ∧
    (enterPanorama (enterPanorama st i) i).savedCameraNear = 1/10 ∧
    (enterPanorama (enterPanorama st i) i).savedCameraFar = 1100 := by
  simp [enterPanorama, h]

/-- Witness for `enterPanorama_reentrant_snapshot_origin` at `demoState` and
pano number 1. -/
theorem enterPanorama_reentrant_snapshot_origin_witness :
    (enterPanorama (enterPanorama demoState 1) 1).currentPanoIndex
      = (enterPanorama demoState 1).currentPanoIndex ∧
    (enterPanorama (enterPanorama demoState 1) 1).currentMode
      = Mode.panorama ∧
    (enterPanorama (enterPanorama demoState 1) 1).savedCameraPos
      = some ⟨0, 0, 0⟩ ∧
    (enterPanorama (enterPanorama demoState 1) 1).savedCameraFov = 60 ∧
    (enterPanorama (enterPanorama demoState 1) 1).savedCameraNear = 1/10 ∧
    (enterPanorama (enterPanorama demoState 1) 1).savedCameraFar = 1100 :=
  enterPanorama_reentrant_snapshot_origin demoState 1 ⟨some 1, "room-1.jpg", 0⟩ rfl

/-- Claim C3 (confirmed): from any starting state, `enterPanorama` on a valid
node followed immediately by `exitPanorama` restores the camera position,
look target, field-of-view and near/far clip planes to exactly their
pre-entry values (exact rational equality models bit-for-bit doubles: the
values are copied, never recomputed). -/
theorem enterPanorama_exitPanorama_restores_camera (st : TourState) (i : Nat)
    (pano : PanoNode) (h : getPanoByNumber st.panoGraph i = some pano) :
    (exitPanorama (enterPanorama st i)).cameraPos = st.cameraPos ∧
    (exitPanorama (enterPanorama st i)).controlsTarget = st.controlsTarget ∧
    (exitPanorama (enterPanorama st i)).cameraFov = st.cameraFov ∧
    (exitPanorama (enterPanorama st i)).cameraNear = st.cameraNear ∧
    (exitPanorama (enterPanorama st i)).cameraFar = st.cameraFar := by
  simp [enterPanorama, exitPanorama, h]

/-- Witness for `enterPanorama_exitPanorama_restores_camera` at `demoState`
and pano number 1. -/
theorem enterPanorama_exitPanorama_restores_camera_witness :
    (exitPanorama (enterPanorama demoState 1)).cameraPos
      = demoState.cameraPos ∧
    (exitPanorama (enterPanorama demoState 1)).controlsTarget
      = demoState.controlsTarget ∧
    (exitPanorama (enterPanorama demoState 1)).cameraFov
      = demoState.cameraFov ∧
    (exitPanorama (enterPanorama demoState 1)).cameraNear
      = demoState.cameraNear ∧
    (exitPanorama (enterPanorama demoState 1)).cameraFar
      = demoState.cameraFar :=
  enterPanorama_exitPanorama_restores_camera demoState 1 ⟨some 1, "room-1.jpg", 0⟩ rfl

/-- Claim C4 counterexample: from `demoState`, `enterPanorama(1)` sets the
active-node reference to array position 0; the subsequent `exitPanorama`
sets the mode to dollhouse but leaves `currentPanoIndex` at 0 — it is not
cleared back to the no-active-node value -1 it held before entering. -/
theorem exitPanorama_keeps_active_node :
    demoState.currentPanoIndex = -1 ∧
    (enterPanorama demoState 1).currentPanoIndex = 0 ∧
    (exitPanorama (enterPanorama demoState 1)).currentMode = Mode.dollhouse ∧
    (exitPanorama (enterPanorama demoState 1)).currentPanoIndex = 0 ∧
    ¬ (exitPanorama (enterPanorama demoState 1)).currentPanoIndex = -1 := by
  refine ⟨rfl, rfl, rfl, rfl, ?_⟩
  decide

/-- Claim C4 amended: `exitPanorama`, called with a saved snapshot present
(as every `enterPanorama` guarantees), restores the camera snapshot exactly
and sets the mode to Dollhouse, but leaves the active-node reference
`currentPanoIndex` unchanged instead of clearing it. -/
theorem exitPanorama_restores_and_sets_dollhouse (st : TourState)
    (p t : Vec3) (hp : st.savedCameraPos = some p)
    (ht : st.savedControlsTarget = some t) :
    (exitPanorama st).currentMode = Mode.dollhouse ∧
    (exitPanorama st).cameraPos = p ∧
    (exitPanorama st).controlsTarget = t ∧
    (exitPanorama st).cameraFov = st.savedCameraFov ∧
    (exitPanorama st).cameraNear = st.savedCameraNear ∧
    (exitPanorama st).cameraFar = st.savedCameraFar ∧
    (exitPanorama st).currentPanoIndex = st.currentPanoIndex := by
  simp [exitPanorama, hp, ht]

/-- Witness for `exitPanorama_restores_and_sets_dollhouse` at the state
reached by `enterPanorama demoState 1`. -/
theorem exitPanorama_restores_and_sets_dollhouse_witness :
    (exitPanorama (enterPanorama demoState 1)).currentMode
      = Mode.dollhouse ∧
    (exitPanorama (enterPanorama demoState 1)).cameraPos = ⟨10, 8, 10⟩ ∧
    (exitPanorama (enterPanorama demoState 1)).controlsTarget = ⟨0, 0, 0⟩ ∧
    (exitPanorama (enterPanorama demoState 1)).cameraFov
      = (enterPanorama demoState 1).savedCameraFov ∧
    (exitPanorama (enterPanorama demoState 1)).cameraNear
      = (enterPanorama demoState 1).savedCameraNear ∧
    (exitPanorama (enterPanorama demoState 1)).cameraFar
      = (enterPanorama demoState 1).savedCameraFar ∧
    (exitPanorama (enterPanorama demoState 1)).currentPanoIndex
      = (enterPanorama demoState 1).currentPanoIndex :=
  exitPanorama_restores_and_sets_dollhouse (enterPanorama demoState 1)
    ⟨10, 8, 10⟩ ⟨0, 0, 0⟩ rfl rfl

/-! ## Claim C5: manifest loading and circular prev/next links -/

theorem nextIdx_iterate (n : Nat) (i : Nat) (hi : i < n) (k : Nat) :
    (nextIdx n)^[k] i = (i + k) % n := by
  induction k with
  | zero => simpa using (Nat.mod_eq_of_lt hi).symm
  | succ k ih =>
    rw [Function.iterate_succ_apply', ih]
    simp only [nextIdx]
    rw [Nat.mod_add_mod, Nat.add_assoc]

theorem prevIdx_nextIdx (n i : Nat) (hn : 0 < n) (hi : i < n) :
    prevIdx n (nextIdx n i) = i := by
  unfold prevIdx nextIdx
  rcases Nat.lt_or_ge (i + 1) n with h | h
  · rw [Nat.mod_eq_of_lt h]
    have h2 : i + 1 + n - 1 = i + n := by omega
    rw [h2, Nat.add_mod_right, Nat.mod_eq_of_lt hi]
  · have hin : i + 1 = n := by omega
    rw [hin, Nat.mod_self]
    have h2 : 0 + n - 1 = n - 1 := by omega
    rw [h2, Nat.mod_eq_of_lt (by omega)]
    omega

theorem nextIdx_prevIdx (n i : Nat) (hn : 0 < n) (hi : i < n) :
    nextIdx n (prevIdx n i) = i := by
  unfold prevIdx nextIdx
  rcases Nat.eq_zero_or_pos i with h0 | hpos
  · subst h0
    have h2 : 0 + n - 1 = n - 1 := by omega
    rw [h2, Nat.mod_eq_of_lt (show n - 1 < n by omega)]
    have h3 : n - 1 + 1 = n := by omega
    rw [h3, Nat.mod_self]
  · have h2 : i + n - 1 = (i - 1) + n := by omega
    rw [h2, Nat.add_mod_right, Nat.mod_eq_of_lt (show i - 1 < n by omega)]
    have h3 : i - 1 + 1 = i := by omega
    rw [h3, Nat.mod_eq_of_lt hi]

theorem nextIdx_reaches (n i j : Nat) (hn : 0 < n) (hi : i < n) (hj : j < n) :
    ∃ k, k < n ∧ (nextIdx n)^[k] i = j := by
  refine ⟨(j + n - i) % n, Nat.mod_lt _ hn, ?_⟩
  rw [nextIdx_iterate n i hi]
  have h1 : i + (j + n - i) % n ≡ i + (j + n - i) [MOD n] :=
    (Nat.mod_modEq (j + n - i) n).add_left i
  have h2 : i + (j + n - i) = j + n := by omega
  calc (i + (j + n - i) % n) % n
      = (i + (j + n - i)) % n := h1
    _ = j := by rw [h2, Nat.add_mod_right, Nat.mod_eq_of_lt hj]

theorem nextIdx_iterate_injective (n i : Nat) (hi : i < n) (k l : Nat)
    (hk : k < n) (hl : l < n)
    (h : (nextIdx n)^[k] i = (nextIdx n)^[l] i) : k = l := by
  rw [nextIdx_iterate n i hi, nextIdx_iterate n i hi] at h
  have hkl : k ≡ l [MOD n] :=
    Nat.ModEq.add_left_cancel (Nat.ModEq.refl i) h
  have h2 : k % n = l % n := hkl
  rwa [Nat.mod_eq_of_lt hk, Nat.mod_eq_of_lt hl] at h2

/-- Claim C5 (confirmed): loading a manifest parses each filename's trailing
integer (an `Infinity` sentinel, sorted last, when there are no trailing
digits), sorts ascending numerically and links `prev`/`next` circularly.
Concretely, `["room-3.jpg","room-1.jpg","room-10.jpg"]` sorts numerically to
room-1, room-3, room-10 (indices 1, 3, 10), and room-10's `next` is room-1;
in general, for every non-empty graph the `prev`/`next` links are mutually
inverse and iterating `next` from any node passes through every array
position exactly once before returning to its start after `n` steps.  A
filename with no trailing digits gets the `Infinity` sentinel key (`none`)
and sorts after every numbered file. -/
theorem loadManifest_sorts_and_links_circularly :
    (demoManifest.map PanoNode.file
      = ["room-1.jpg", "room-3.jpg", "room-10.jpg"]) ∧
    (demoManifest.map PanoNode.index = [some 1, some 3, some 10]) ∧
    ((loadManifest ["cover.jpg", "room-2.jpg", "room-1.jpg"]).map
        (fun p => (p.file, p.index))
      = [("room-1.jpg", some 1), ("room-2.jpg", some 2),
         ("cover.jpg", none)]) ∧
    ((demoManifest.get? 2).map PanoNode.file = some "room-10.jpg" ∧
      nextIdx demoManifest.length 2 = 0 ∧
      (demoManifest.get? 0).map PanoNode.file = some "room-1.jpg") ∧
    (∀ g : List PanoNode, g ≠ [] → ∀ i, i < g.length →
      prevIdx g.length (nextIdx g.length i) = i ∧
      nextIdx g.length (prevIdx g.length i) = i ∧
      (nextIdx g.length)^[g.length] i = i ∧
      (∀ j, j < g.length → ∃ k, k < g.length ∧ (nextIdx g.length)^[k] i = j) ∧
      (∀ k l, k < g.length → l < g.length →
        (nextIdx g.length)^[k] i = (nextIdx g.length)^[l] i → k = l)) := by
  refine ⟨by decide, by decide, by decide, ⟨by decide, by decide, by decide⟩, ?_⟩
  intro g hg i hi
  have hn : 0 < g.length := List.length_pos.mpr hg
  refine ⟨prevIdx_nextIdx _ _ hn hi, nextIdx_prevIdx _ _ hn hi, ?_, ?_, ?_⟩
  · rw [nextIdx_iterate _ _ hi, Nat.add_mod_right, Nat.mod_eq_of_lt hi]
  · exact fun j hj => nextIdx_reaches _ _ _ hn hi hj
  · exact fun k l hk hl h => nextIdx_iterate_injective _ _ hi k l hk hl h

/-! ## Claim C6: the easing curve -/

/-- Claim C6 (confirmed): the cubic ease-in-out curve satisfies e(0) = 0,
e(0.5) = 0.5, e(1) = 1, and is monotonically non-decreasing on [0, 1]. -/
theorem easeInOutCubic_endpoints_and_monotone :
    easeInOutCubic 0 = 0 ∧
    easeInOutCubic (1/2) = 1/2 ∧
    easeInOutCubic 1 = 1 ∧
    (∀ p q : ℚ, 0 ≤ p → p ≤ q → q ≤ 1 →
      easeInOutCubic p ≤ easeInOutCubic q) := by
  refine ⟨by norm_num [easeInOutCubic], by norm_num [easeInOutCubic],
    by norm_num [easeInOutCubic], ?_⟩
  intro p q hp hpq hq
  unfold easeInOutCubic
  split_ifs with h1 h2 h3
  · nlinarith [sq_nonneg (p + q), sq_nonneg (p - q),
      mul_nonneg hp (le_trans hp hpq)]
  · have hp2 : p ^ 3 ≤ (1/2) ^ 3 :=
      pow_le_pow_left₀ hp (by linarith) 3
    have hq0 : (0:ℚ) ≤ -2 * q + 2 := by linarith
    have hq1 : -2 * q + 2 ≤ 1 := by linarith
    have hq3 : (-2 * q + 2) ^ 3 ≤ 1 := pow_le_one₀ hq0 hq1
    nlinarith
  · exfalso; linarith
  · have h0 : (0:ℚ) ≤ -2 * q + 2 := by linarith
    have hle : -2 * q + 2 ≤ -2 * p + 2 := by linarith
    have h3 := pow_le_pow_left₀ h0 hle 3
    linarith

/-! ## Claim C7: the field-of-view accumulator invariant -/

theorem clampFov_bounds (f : ℚ) : 30 ≤ clampFov f ∧ clampFov f ≤ 100 :=
  ⟨le_max_left 30 _, max_le (by norm_num) (min_le_left 100 f)⟩

theorem applyZoomInput_bounds (f : ℚ) (z : ZoomInput) :
    30 ≤ applyZoomInput f z ∧ applyZoomInput f z ≤ 100 := by
  cases z
  · exact clampFov_bounds _
  · exact clampFov_bounds _

theorem foldl_zoom_bounds (l : List ZoomInput) (f : ℚ)
    (h30 : 30 ≤ f) (h100 : f ≤ 100) :
    30 ≤ l.foldl applyZoomInput f ∧ l.foldl applyZoomInput f ≤ 100 := by
  induction l generalizing f with
  | nil => exact ⟨h30, h100⟩
  | cons z l ih =>
    simp only [List.foldl_cons]
    exact ih _ (applyZoomInput_bounds f z).1 (applyZoomInput_bounds f z).2

/-- Claim C7 (confirmed): after any finite sequence of wheel and pinch zoom
inputs of any magnitudes and signs — wheel deltas scaled by 0.05, pinch
deltas by 0.15, both feeding the same clamp — the field-of-view accumulator
lies in [30, 100]. -/
theorem panoFov_clamped_after_any_inputs :
    ∀ inputs : List ZoomInput,
      30 ≤ applyZoomInputs inputs ∧ applyZoomInputs inputs ≤ 100 :=
  fun inputs => foldl_zoom_bounds inputs 60 (by norm_num) (by norm_num)

/-! ## Claim C8: floor-marker bearings -/

theorem atan2_zero_one : atan2 0 1 = 0 := by
  unfold atan2
  have h : (⟨1, 0⟩ : ℂ) = 1 := by simp [Complex.ext_iff]
  rw [h, Complex.arg_one]

theorem atan2_one_zero : atan2 1 0 = Real.pi / 2 := by
  unfold atan2
  have h : (⟨0, 1⟩ : ℂ) = Complex.I := by simp [Complex.ext_iff]
  rw [h, Complex.arg_I]

theorem radToDeg_zero : radToDeg 0 = 0 := by
  simp [radToDeg]

theorem radToDeg_half_pi : radToDeg (Real.pi / 2) = 90 := by
  unfold radToDeg
  field_simp
  ring

/-- Claim C8 (confirmed): a connected neighbor with no recorded hotspot
position never yields a floor marker (first conjunct, for every graph,
active index, registry, connection table and offset table); and in the
concrete configuration with the active node at (0,0,0) and orientation
offset 0, the neighbor at (1,0,0) gets image-relative yaw 0°, the neighbor
at (0,0,1) gets 90°, and the position-less neighbor 4 is skipped (second
conjunct). -/
theorem createPanoArrows_bearings_and_skip :
    (∀ (g : List PanoNode) (cur : Int) (hs : Nat → Option Vec3)
       (conn : Nat → List Nat) (off : Nat → ℚ) (t : Nat) (y : ℝ),
       hs t = none → (t, y) ∉ createPanoArrows g cur hs conn off) ∧
    createPanoArrows demoArrowGraph 0 demoArrowHotspots demoArrowConnections
      (fun _ => 0) = [(2, 0), (3, 90)] := by
  constructor
  · intro g cur hs conn off t y h hmem
    unfold createPanoArrows at hmem
    split at hmem
    · simp at hmem
    · split at hmem
      · simp at hmem
      · simp only [List.mem_filterMap] at hmem
        obtain ⟨a, _, hfa⟩ := hmem
        split at hfa
        · simp only [Option.some.injEq, Prod.mk.injEq] at hfa
          obtain ⟨rfl, -⟩ := hfa
          simp_all
        · exact Option.noConfusion hfa
  · show createPanoArrows demoArrowGraph 0 demoArrowHotspots
      demoArrowConnections (fun _ => 0) = [(2, 0), (3, 90)]
    unfold createPanoArrows
    norm_num [graphAt, demoArrowGraph, demoArrowHotspots, demoArrowConnections,
      getPanoByNumber, connectionsOf, northOffsetOf, List.filterMap,
      List.find?, atan2_zero_one, atan2_one_zero, radToDeg_zero,
      radToDeg_half_pi]

/-! ## Claim C9: tap classification -/

/-- Claim C9 (confirmed): a pointer-down/up pair is classified as a tap — and
only then reaches the click/hit-test handler — iff the elapsed time is
strictly below 300 ms and the displacement from the down position is
strictly below 10 screen units (equivalently, its square is below 100);
elapsed 100 ms with displacement 3 is a tap, elapsed 500 ms with
displacement 3 is not, elapsed 100 ms with displacement 50 is not. -/
theorem isTap_iff_thresholds_and_examples :
    (∀ (e : ℤ) (cx cy px py : ℝ),
      isTap e cx cy px py ↔
        e < 300 ∧ (cx - px) ^ 2 + (cy - py) ^ 2 < 100) ∧
    isTap 100 3 0 0 0 ∧ ¬ isTap 500 3 0 0 0 ∧ ¬ isTap 100 50 0 0 0 := by
  have key : ∀ (e : ℤ) (cx cy px py : ℝ),
      isTap e cx cy px py ↔
        e < 300 ∧ (cx - px) ^ 2 + (cy - py) ^ 2 < 100 := by
    intro e cx cy px py
    unfold isTap tapDisplacement
    rw [Real.sqrt_lt' (by norm_num : (0:ℝ) < 10)]
    norm_num
  refine ⟨key, ?_, ?_, ?_⟩
  · rw [key]; norm_num
  · rw [key]; norm_num
  · rw [key]; norm_num

/-! ## Claim C10: the two trailing-number parsers agree -/

/-- Claim C10 (confirmed): the trailing-number parser of the
manifest-generation utility and the one of the tour core are extensionally
equal — both strip a final dot-extension, parse the trailing decimal run in
base 10, and fall back to the `Infinity` sentinel — so sorting any file list
by the generator's keys and by the core's keys gives the same result. -/
theorem trailingNumber_generator_eq_core :
    (∀ s : String, ManifestGen.trailingNumber s = Tour.trailingNumber s) ∧
    (∀ files : List String,
      List.insertionSort manifestGenLE files
        = List.insertionSort manifestLE files) :=
  ⟨fun _ => rfl, fun _ => rfl⟩
